import Mathlib

/-!
Verification of the `syncall.py` reconciliation script.

The script runs three sequential stages: query a search index for all
documents (`search_index`), load a reference CSV from blob storage
(`load_csv_from_blob`), and delete index documents whose ids are absent
from the CSV (`delete_documents_from_index`), orchestrated by `main`.

The embedding models Python values that appear as ids and contents by the
scalar type `PyVal` (strings, integers, and the null/NaN value `PyVal.none`),
Python dictionaries by insertion-ordered association lists with the
overwrite-in-place semantics of the Python `dict`, and Python exceptions
(`KeyError`, `TypeError`, transport-level request exceptions) by an
`Except PyErr` result. Network effects are made explicit: each HTTP call
takes its (possibly failing) response as an argument, and the functions
additionally return the list of requests they issued and the lines they
printed, so that claims about "no delete request is issued" and about log
messages are statable.
-/

set_option autoImplicit false

namespace Syncall

/-- A Python scalar value as it appears in ids and contents: a string, an
integer, or the missing value (`None` in Python, also standing in for the
NaN that pandas produces for absent cells). -/
inductive PyVal where
  | str : String → PyVal
  | int : Int → PyVal
  | none : PyVal
deriving DecidableEq, Repr

/-- A Python exception as raised by the script: `KeyError(k)` from a missing
dictionary key or column, `TypeError` from slicing a non-string, and the
transport-level exception a `requests.post` call itself may raise. -/
inductive PyErr where
  | keyError : String → PyErr
  | typeError : PyErr
  | requestException : PyErr
deriving DecidableEq, Repr

/-- The f-string coercion of a Python scalar, Python `str(v)`. -/
def pyStr : PyVal → String
  | .str s => s
  | .int n => toString n
  | .none => "None"

/-- The Python slice `v[:30]`: defined on strings (first 30 characters),
a `TypeError` on the other scalars. -/
def pySlice30 : PyVal → Except PyErr String
  | .str s => .ok (s.take 30)
  | _ => .error .typeError

/-- A Python `dict` from scalar keys to scalar values, as an
insertion-ordered association list with unique keys. -/
abbrev Dict := List (PyVal × PyVal)

/-- Python `d[k] = v` semantics: an existing key keeps its position and
has its value replaced; a new key is appended at the end. -/
def dictInsert (d : Dict) (k v : PyVal) : Dict :=
  if d.any (fun p => p.1 == k) then
    d.map (fun p => if p.1 == k then (p.1, v) else p)
  else
    d ++ [(k, v)]

/-- The Python dict comprehension `{k: v for (k, v) in ps}`: entries are
inserted left to right, duplicates overwriting in place. -/
def dictOfPairs (ps : List (PyVal × PyVal)) : Dict :=
  ps.foldl (fun d p => dictInsert d p.1 p.2) []

/-- The keys of a dict, in insertion order (what iterating a Python dict
yields). -/
def dictKeys (d : Dict) : List PyVal :=
  d.map (fun p => p.1)

/-- Python `k in d`. -/
def dictContains (d : Dict) (k : PyVal) : Bool :=
  d.any (fun p => p.1 == k)

/-- Python `d.get(k, default)`. -/
def dictGet (d : Dict) (k : PyVal) (dflt : PyVal) : PyVal :=
  match d.find? (fun p => p.1 == k) with
  | some p => p.2
  | Option.none => dflt

/-- Python `d[k]` as an option (used to specify dict contents). -/
def dictFind (d : Dict) (k : PyVal) : Option PyVal :=
  (d.find? (fun p => p.1 == k)).map (fun p => p.2)

/-- A document object of the parsed search response: the `id` and
`content` fields when present (`Option.none` models an absent field, whose
access raises `KeyError`). -/
structure DocObj where
  id : Option PyVal
  content : Option PyVal
deriving DecidableEq, Repr

/-- The parsed JSON body of a search response: its `value` field when
present (`Option.none` models a body without the `value` key). -/
structure SearchBody where
  value : Option (List DocObj)
deriving DecidableEq, Repr

/-- An HTTP response: status code, parsed JSON body, and raw text (the
text is what error logging prints). -/
structure Response where
  status : Nat
  body : SearchBody
  text : String
deriving DecidableEq, Repr

/-- The reference CSV after pandas parsing: the header row and the data
rows (each row listing the cell values in header order). -/
structure Csv where
  header : List String
  rows : List (List PyVal)
deriving DecidableEq, Repr

/-- One entry of the delete request body `value` array: the
`@search.action` marker and the document id. -/
structure IndexAction where
  action : String
  id : PyVal
deriving DecidableEq, Repr

/-- An HTTP request the script issues: the search POST (by url) or the
batch delete POST (url and the `value` array of its JSON body). -/
inductive Request where
  | search : String → Request
  | delete : String → List IndexAction → Request
deriving DecidableEq, Repr

/-- Whether a request is a batch delete. -/
def Request.isDeleteReq : Request → Bool
  | .delete _ _ => true
  | .search _ => false

/-- The search url, `{base_url}/indexes/{index_name}/docs/search?api-version=2024-07-01`. -/
def searchUrl (base_url index_name : String) : String :=
  base_url ++ "/indexes/" ++ index_name ++ "/docs/search?api-version=2024-07-01"

/-- The index (delete) url, `{base_url}/indexes/{index_name}/docs/index?api-version=2024-07-01`. -/
def indexUrl (base_url index_name : String) : String :=
  base_url ++ "/indexes/" ++ index_name ++ "/docs/index?api-version=2024-07-01"

/-- The line `Error during search: {status}, {text}` printed on a failing search response. -/
def searchErrLine (r : Response) : String :=
  "Error during search: " ++ toString r.status ++ ", " ++ r.text

/-- The line `Error during deletion: {status}, {text}` printed on a failing delete response. -/
def deleteErrLine (r : Response) : String :=
  "Error during deletion: " ++ toString r.status ++ ", " ++ r.text

/-- The line `Successfully deleted {n} documents.` printed on a 200 delete response. -/
def deleteOkLine (n : Nat) : String :=
  "Successfully deleted " ++ toString n ++ " documents."

/-- The no-op message printed when there is nothing to delete. -/
def noopLine : String :=
  "No documents to delete. All records in the CSV are present in the index."

/-- The header line printed before listing deletion candidates. -/
def deletingHeaderLine : String :=
  "Deleting the following documents:"

/-- The candidate line `ID: {doc_id}, {preview}...` printed for each deletion candidate. -/
def candLine (doc_id : PyVal) (preview : String) : String :=
  "ID: " ++ pyStr doc_id ++ ", " ++ preview ++ "..."

/-- The dict-comprehension body of `search_index`: for each document take
`doc["id"]` and `doc["content"]`, raising `KeyError` at the first document
missing one of the fields. -/
def collectDocs : List DocObj → Except PyErr (List (PyVal × PyVal))
  | [] => .ok []
  | d :: ds =>
    match d.id with
    | Option.none => .error (.keyError "id")
    | some i =>
      match d.content with
      | Option.none => .error (.keyError "content")
      | some c =>
        match collectDocs ds with
        | .error e => .error e
        | .ok ps => .ok ((i, c) :: ps)

/-- Models `search_index(base_url, index_name, api_key)`: issues the search POST;
on a 200 response builds `{doc["id"]: doc["content"] for doc in body["value"]}`,
on any other response prints the status and text and returns the empty
dict. A transport exception of the POST itself propagates. Returns the
result together with the issued requests and the printed lines. -/
def search_index (base_url index_name api_key : String)
    (resp : Except PyErr Response) :
    Except PyErr Dict × List Request × List String :=
  match resp with
  | .error e => (.error e, [Request.search (searchUrl base_url index_name)], [])
  | .ok r =>
    if r.status == 200 then
      match r.body.value with
      | Option.none =>
        (.error (.keyError "value"),
          [Request.search (searchUrl base_url index_name)], [])
      | some docs =>
        match collectDocs docs with
        | .error e =>
          (.error e, [Request.search (searchUrl base_url index_name)], [])
        | .ok ps =>
          (.ok (dictOfPairs ps),
            [Request.search (searchUrl base_url index_name)], [])
    else
      (.ok [], [Request.search (searchUrl base_url index_name)],
        [searchErrLine r])

/-- Models `row[col]` on a pandas row: the cell under the column when the header
has it, a `KeyError` otherwise. -/
def rowGet (header : List String) (row : List PyVal) (col : String) :
    Except PyErr PyVal :=
  match header.findIdx? (fun h => h == col) with
  | some i => .ok (row.getD i PyVal.none)
  | Option.none => .error (.keyError col)

/-- The dict-comprehension body of `load_csv_from_blob`: for each row take
the f-string coercion of `row["id"]` and the raw `row["content"]`, raising `KeyError` at the first row
missing a column. -/
def collectRows (header : List String) :
    List (List PyVal) → Except PyErr (List (PyVal × PyVal))
  | [] => .ok []
  | row :: rs =>
    match rowGet header row "id" with
    | .error e => .error e
    | .ok i =>
      match rowGet header row "content" with
      | .error e => .error e
      | .ok c =>
        match collectRows header rs with
        | .error e => .error e
        | .ok ps => .ok ((PyVal.str (pyStr i), c) :: ps)

/-- Models `load_csv_from_blob(connection_string, container_name, blob_name)`:
the download and parse yield `blob` (an exception there propagates), then
the rows become the dict mapping the coerced id of each row to its content.
No requests to the search service and no prints. -/
def load_csv_from_blob (blob : Except PyErr Csv) : Except PyErr Dict :=
  match blob with
  | .error e => .error e
  | .ok csv =>
    match collectRows csv.header csv.rows with
    | .error e => .error e
    | .ok ps => .ok (dictOfPairs ps)

/-- The candidate-logging loop of `delete_documents_from_index`: for each
id prints `f"ID: {doc_id}, {content[:30]}..."` with
`content = index_data.get(doc_id, "Content not available")`; slicing a
non-string content raises `TypeError`, keeping the lines printed so far. -/
def logCandidates (index_data : Dict) :
    List PyVal → Except PyErr Unit × List String
  | [] => (.ok (), [])
  | i :: rest =>
    let content := dictGet index_data i (PyVal.str "Content not available")
    match pySlice30 content with
    | .error e => (.error e, [])
    | .ok preview =>
      let (res, ls) := logCandidates index_data rest
      (res, candLine i preview :: ls)

/-- Models `delete_documents_from_index(base_url, index_name, api_key,
doc_ids_to_delete, index_data)`: prints the header line and one line per
candidate (a `TypeError` while slicing a non-string content aborts before
any request), then issues one POST to the index url whose body is
`{"value": [{"@search.action": "delete", "id": doc_id}, ...]}`, and prints
the success count on a 200 response or the error line otherwise. -/
def delete_documents_from_index (base_url index_name api_key : String)
    (doc_ids_to_delete : List PyVal) (index_data : Dict)
    (resp : Except PyErr Response) :
    Except PyErr Unit × List Request × List String :=
  match logCandidates index_data doc_ids_to_delete with
  | (.error e, ls) => (.error e, [], deletingHeaderLine :: ls)
  | (.ok _, ls) =>
    match resp with
    | .error e =>
      (.error e,
        [Request.delete (indexUrl base_url index_name)
          (doc_ids_to_delete.map (fun i => { action := "delete", id := i }))],
        deletingHeaderLine :: ls)
    | .ok r =>
      if r.status == 200 then
        (.ok (),
          [Request.delete (indexUrl base_url index_name)
            (doc_ids_to_delete.map (fun i => { action := "delete", id := i }))],
          deletingHeaderLine :: ls ++ [deleteOkLine doc_ids_to_delete.length])
      else
        (.ok (),
          [Request.delete (indexUrl base_url index_name)
            (doc_ids_to_delete.map (fun i => { action := "delete", id := i }))],
          deletingHeaderLine :: ls ++ [deleteErrLine r])

/-- The reconciliation step `[doc_id for doc_id in index_data if doc_id not in csv_data]`. -/
def deletionSet (index_data csv_data : Dict) : List PyVal :=
  (dictKeys index_data).filter (fun i => ! dictContains csv_data i)

/-- The service base url, `https://{search_service_name}.search.windows.net`. -/
def baseUrl (search_service_name : String) : String :=
  "https://" ++ search_service_name ++ ".search.windows.net"

/-- Models `main(args)`: search, load, reconcile, conditionally delete. The two
possible responses and the blob download result are explicit inputs; the
result is the process outcome (an uncaught exception or normal
termination) together with all issued requests and printed lines. -/
def main (search_service_name index_name api_key : String)
    (searchResp : Except PyErr Response) (blob : Except PyErr Csv)
    (deleteResp : Except PyErr Response) :
    Except PyErr Unit × List Request × List String :=
  match search_index (baseUrl search_service_name) index_name api_key
      searchResp with
  | (.error e, reqs1, log1) => (.error e, reqs1, log1)
  | (.ok index_data, reqs1, log1) =>
    match load_csv_from_blob blob with
    | .error e => (.error e, reqs1, log1)
    | .ok csv_data =>
      if (deletionSet index_data csv_data).isEmpty then
        (.ok (), reqs1, log1 ++ [noopLine])
      else
        ((delete_documents_from_index (baseUrl search_service_name)
            index_name api_key (deletionSet index_data csv_data)
            index_data deleteResp).1,
          reqs1 ++ (delete_documents_from_index (baseUrl search_service_name)
            index_name api_key (deletionSet index_data csv_data)
            index_data deleteResp).2.1,
          log1 ++ (delete_documents_from_index (baseUrl search_service_name)
            index_name api_key (deletionSet index_data csv_data)
            index_data deleteResp).2.2)

/-- Whether a Python scalar is a string (the scalars `v` for which `v[:30]`
is defined). -/
def isStrVal : PyVal → Bool
  | .str _ => true
  | _ => false

/-- The value of the last pair of `ps` whose key is `k`, if any: the value
a Python dict comprehension over `ps` associates to `k`. -/
def lastOccurrence (ps : List (PyVal × PyVal)) (k : PyVal) : Option PyVal :=
  (ps.reverse.find? (fun p => p.1 == k)).map (fun p => p.2)

/-! ### Dictionary semantics lemmas -/

theorem dictFind_dictInsert (d : Dict) (a b k : PyVal) :
    dictFind (dictInsert d a b) k
      = if a = k then some b else dictFind d k := by
  unfold dictFind dictInsert
  by_cases hany : d.any (fun p => p.1 == a) = true
  · rw [if_pos hany, List.find?_map _ d]
    have hcomp : ((fun p : PyVal × PyVal => p.1 == k)
        ∘ (fun p : PyVal × PyVal => if p.1 == a then (p.1, b) else p))
        = (fun p : PyVal × PyVal => p.1 == k) := by
      funext p
      by_cases hpa : p.1 = a <;> simp [Function.comp, hpa]
    rw [hcomp, Option.map_map]
    by_cases hak : a = k
    · subst hak
      obtain ⟨q, hqmem, hqa⟩ := List.any_eq_true.mp hany
      rcases hfind : d.find? (fun p => p.1 == a) with _ | r
      · exact absurd hqa (by simpa using List.find?_eq_none.mp hfind q hqmem)
      · have hra : r.1 = a := by simpa using List.find?_some hfind
        obtain ⟨r1, r2⟩ := r
        simp only [] at hra
        subst hra
        rw [hfind]
        simp [Function.comp]
    · rw [if_neg hak]
      rcases hfind : d.find? (fun p => p.1 == k) with _ | r
      · rw [hfind]
        simp
      · have hrk : r.1 = k := by simpa using List.find?_some hfind
        have hra : ¬ r.1 = a := by rw [hrk]; exact fun h => hak h.symm
        rw [hfind]
        simp [Function.comp, hra]
  · rw [if_neg hany, List.find?_append]
    have hnone : d.find? (fun p => p.1 == a) = Option.none := by
      rcases hfind : d.find? (fun p => p.1 == a) with _ | r
      · exact hfind
      · exact absurd (List.any_eq_true.mpr
          ⟨r, List.mem_of_find?_eq_some hfind, List.find?_some hfind⟩) hany
    by_cases hak : a = k
    · subst hak
      rw [hnone]
      simp [List.find?]
    · rw [if_neg hak]
      have hbeq : (a == k) = false := by
        simp [hak]
      have hl : ([(a, b)].find? (fun p => p.1 == k)) = Option.none := by
        simp [List.find?, hbeq]
      rw [hl, Option.or_none]

theorem dictKeys_dictInsert (d : Dict) (a b : PyVal) :
    dictKeys (dictInsert d a b)
      = if d.any (fun p => p.1 == a) then dictKeys d else dictKeys d ++ [a] := by
  unfold dictKeys dictInsert
  by_cases hany : d.any (fun p => p.1 == a) = true
  · rw [if_pos hany, if_pos hany, List.map_map]
    congr 1
    funext p
    by_cases hpa : p.1 = a <;> simp [Function.comp, hpa]
  · rw [if_neg hany, if_neg hany]
    simp

theorem dictKeys_dictInsert_nodup (d : Dict) (a b : PyVal)
    (h : (dictKeys d).Nodup) : (dictKeys (dictInsert d a b)).Nodup := by
  rw [dictKeys_dictInsert]
  by_cases hany : d.any (fun p => p.1 == a) = true
  · rwa [if_pos hany]
  · rw [if_neg hany]
    have hnotmem : a ∉ dictKeys d := by
      intro hmem
      obtain ⟨p, hp, hpa⟩ := List.mem_map.mp hmem
      exact hany (List.any_eq_true.mpr ⟨p, hp, by simp [hpa]⟩)
    simp [List.nodup_append, h, hnotmem]

theorem lastOccurrence_nil (k : PyVal) : lastOccurrence [] k = Option.none := rfl

theorem lastOccurrence_cons (p : PyVal × PyVal) (ps : List (PyVal × PyVal))
    (k : PyVal) :
    lastOccurrence (p :: ps) k
      = (lastOccurrence ps k).or (if p.1 = k then some p.2 else Option.none) := by
  unfold lastOccurrence
  rw [List.reverse_cons, List.find?_append]
  rcases hfind : ps.reverse.find? (fun q => q.1 == k) with _ | q
  · rw [hfind]
    by_cases hpk : p.1 = k
    · have hbeq : (p.1 == k) = true := by simp [hpk]
      simp [List.find?, hbeq, hpk]
    · have hbeq : (p.1 == k) = false := by simp [hpk]
      simp [List.find?, hbeq, hpk]
  · rw [hfind]
    simp

theorem dictFind_foldl_insert (ps : List (PyVal × PyVal)) (k : PyVal) :
    ∀ acc : Dict,
      dictFind (ps.foldl (fun d p => dictInsert d p.1 p.2) acc) k
        = (lastOccurrence ps k).or (dictFind acc k) := by
  induction ps with
  | nil => intro acc; simp [lastOccurrence_nil]
  | cons p ps ih =>
    intro acc
    rw [List.foldl_cons, ih, lastOccurrence_cons, dictFind_dictInsert,
      Option.or_assoc]
    congr 1
    by_cases hpk : p.1 = k <;> simp [hpk]

theorem dictFind_dictOfPairs (ps : List (PyVal × PyVal)) (k : PyVal) :
    dictFind (dictOfPairs ps) k = lastOccurrence ps k := by
  rw [dictOfPairs, dictFind_foldl_insert]
  have : dictFind [] k = Option.none := rfl
  rw [this, Option.or_none]

theorem dictKeys_dictOfPairs_nodup (ps : List (PyVal × PyVal)) :
    (dictKeys (dictOfPairs ps)).Nodup := by
  have hgen : ∀ acc : Dict, (dictKeys acc).Nodup →
      (dictKeys (ps.foldl (fun d p => dictInsert d p.1 p.2) acc)).Nodup := by
    induction ps with
    | nil => intro acc h; simpa using h
    | cons p ps ih =>
      intro acc h
      rw [List.foldl_cons]
      exact ih _ (dictKeys_dictInsert_nodup _ _ _ h)
  exact hgen [] (by simp [dictKeys])

theorem dictContains_iff_mem (d : Dict) (k : PyVal) :
    dictContains d k = true ↔ k ∈ dictKeys d := by
  unfold dictContains dictKeys
  rw [List.any_eq_true]
  constructor
  · rintro ⟨p, hp, hpk⟩
    exact List.mem_map.mpr ⟨p, hp, beq_iff_eq.mp hpk⟩
  · intro hmem
    obtain ⟨p, hp, hpk⟩ := List.mem_map.mp hmem
    exact ⟨p, hp, beq_iff_eq.mpr hpk⟩

theorem dictContains_eq_decide (d : Dict) (k : PyVal) :
    dictContains d k = decide (k ∈ dictKeys d) := by
  by_cases h : k ∈ dictKeys d
  · rw [(dictContains_iff_mem d k).mpr h]
    simp [h]
  · have hc : ¬ dictContains d k = true :=
      fun hc => h ((dictContains_iff_mem d k).mp hc)
    rw [Bool.not_eq_true] at hc
    rw [hc]
    simp [h]

theorem dictContains_eq_isSome (d : Dict) (k : PyVal) :
    dictContains d k = (dictFind d k).isSome := by
  unfold dictContains dictFind
  induction d with
  | nil => rfl
  | cons p ps ih =>
    by_cases hpk : p.1 = k
    · have hbeq : (p.1 == k) = true := by simp [hpk]
      simp [List.find?, hbeq]
    · have hbeq : (p.1 == k) = false := by simp [hpk]
      simp [List.find?, hbeq, ih]

theorem mem_dictKeys_dictOfPairs (ps : List (PyVal × PyVal)) (k : PyVal)
    (h : k ∈ dictKeys (dictOfPairs ps)) : ∃ v, (k, v) ∈ ps := by
  have hc : dictContains (dictOfPairs ps) k = true :=
    (dictContains_iff_mem _ _).mpr h
  rw [dictContains_eq_isSome, dictFind_dictOfPairs] at hc
  unfold lastOccurrence at hc
  rcases hfind : ps.reverse.find? (fun p => p.1 == k) with _ | p
  · rw [hfind] at hc
    simp at hc
  · have hpk : p.1 = k := by simpa using List.find?_some hfind
    have hpmem : p ∈ ps := List.mem_reverse.mp (List.mem_of_find?_eq_some hfind)
    exact ⟨p.2, by rwa [← hpk, Prod.mk.eta]⟩

/-! ### Lemmas about the search result comprehension -/

theorem collectDocs_error_of_bad (docs : List DocObj)
    (h : ∃ d ∈ docs, d.id = Option.none ∨ d.content = Option.none) :
    ∃ k, collectDocs docs = .error (.keyError k) := by
  induction docs with
  | nil => simp at h
  | cons d ds ih =>
    rcases hdid : d.id with _ | i
    · exact ⟨"id", by simp [collectDocs, hdid]⟩
    · rcases hdc : d.content with _ | c
      · exact ⟨"content", by simp [collectDocs, hdid, hdc]⟩
      · obtain ⟨e, hemem, hbad⟩ := h
        rcases List.mem_cons.mp hemem with heq | hmem
        · subst heq
          rcases hbad with hbad | hbad
          · rw [hdid] at hbad; exact absurd hbad (by simp)
          · rw [hdc] at hbad; exact absurd hbad (by simp)
        · obtain ⟨k, hk⟩ := ih ⟨e, hmem, hbad⟩
          exact ⟨k, by simp [collectDocs, hdid, hdc, hk]⟩

/-! ### Lemmas about the CSV row comprehension -/

theorem rowGet_error_of_not_mem (header : List String) (row : List PyVal)
    (col : String) (h : col ∉ header) :
    rowGet header row col = .error (.keyError col) := by
  unfold rowGet
  have hidx : header.findIdx? (fun c => c == col) = Option.none := by
    rw [List.findIdx?_eq_none_iff]
    intro c hc
    have : ¬ c = col := fun he => h (he ▸ hc)
    simp [this]
  rw [hidx]

theorem collectRows_error_no_id (header : List String)
    (rows : List (List PyVal)) (hid : "id" ∉ header) (hrows : rows ≠ []) :
    collectRows header rows = .error (.keyError "id") := by
  cases rows with
  | nil => exact absurd rfl hrows
  | cons row rs =>
    simp [collectRows, rowGet_error_of_not_mem header row "id" hid]

theorem collectRows_ok_keys (header : List String) (rows : List (List PyVal))
    (ps : List (PyVal × PyVal)) (h : collectRows header rows = .ok ps) :
    ∀ p ∈ ps, ∃ s, p.1 = PyVal.str s := by
  induction rows generalizing ps with
  | nil =>
    simp [collectRows] at h
    subst h
    intro p hp
    simp at hp
  | cons row rs ih =>
    unfold collectRows at h
    rcases hi : rowGet header row "id" with e | i
    · rw [hi] at h; exact absurd h (by simp)
    · rw [hi] at h
      rcases hc : rowGet header row "content" with e | c
      · rw [hc] at h; exact absurd h (by simp)
      · rw [hc] at h
        rcases hr : collectRows header rs with e | ps'
        · rw [hr] at h; exact absurd h (by simp)
        · rw [hr] at h
          have hps : ps = (PyVal.str (pyStr i), c) :: ps' := by
            cases h; rfl
          subst hps
          intro p hp
          rcases List.mem_cons.mp hp with hp | hp
          · exact ⟨pyStr i, by rw [hp]⟩
          · exact ih ps' hr p hp

/-! ### Lemmas about the candidate-logging loop -/

theorem logCandidates_ok_of_strings (d : Dict) (ids : List PyVal)
    (h : ∀ i ∈ ids,
      isStrVal (dictGet d i (PyVal.str "Content not available")) = true) :
    (logCandidates d ids).1 = .ok () := by
  induction ids with
  | nil => rfl
  | cons i rest ih =>
    have hi := h i (List.mem_cons_self i rest)
    unfold logCandidates
    rcases hv : dictGet d i (PyVal.str "Content not available") with s | n | _
    · simp [pySlice30]
      exact ih (fun j hj => h j (List.mem_cons_of_mem i hj))
    · rw [hv] at hi; simp [isStrVal] at hi
    · rw [hv] at hi; simp [isStrVal] at hi

theorem logCandidates_error_of_nonstring (d : Dict) (ids : List PyVal)
    (h : ∃ i ∈ ids,
      isStrVal (dictGet d i (PyVal.str "Content not available")) = false) :
    (logCandidates d ids).1 = .error .typeError := by
  induction ids with
  | nil => simp at h
  | cons i rest ih =>
    unfold logCandidates
    rcases hv : dictGet d i (PyVal.str "Content not available") with s | n | _
    · simp [pySlice30]
      apply ih
      obtain ⟨j, hj, hjs⟩ := h
      rcases List.mem_cons.mp hj with hj | hj
      · subst hj; rw [hv] at hjs; simp [isStrVal] at hjs
      · exact ⟨j, hj, hjs⟩
    · simp [pySlice30]
    · simp [pySlice30]

theorem logCandidates_mem (d : Dict) (pre post : List PyVal) (i : PyVal)
    (s : String)
    (hpre : ∀ j ∈ pre,
      isStrVal (dictGet d j (PyVal.str "Content not available")) = true)
    (hi : dictGet d i (PyVal.str "Content not available") = PyVal.str s) :
    candLine i (s.take 30) ∈ (logCandidates d (pre ++ i :: post)).2 := by
  induction pre with
  | nil =>
    rw [List.nil_append]
    unfold logCandidates
    rw [hi]
    simp [pySlice30]
  | cons j pre' ih =>
    have hj := hpre j (List.mem_cons_self j pre')
    rw [List.cons_append]
    unfold logCandidates
    rcases hv : dictGet d j (PyVal.str "Content not available") with t | n | _
    · simp only [pySlice30]
      exact List.mem_cons_of_mem _
        (ih (fun j' hj' => hpre j' (List.mem_cons_of_mem j hj')))
    · rw [hv] at hj; simp [isStrVal] at hj
    · rw [hv] at hj; simp [isStrVal] at hj

/-! ### Component lemmas for `search_index` and `main` -/

theorem search_index_requests (b i k : String) (resp : Except PyErr Response) :
    (search_index b i k resp).2.1 = [Request.search (searchUrl b i)] := by
  unfold search_index
  rcases resp with e | r
  · rfl
  · dsimp only
    split
    · split
      · rfl
      · split <;> rfl
    · rfl

theorem search_index_eta (b i k : String) (resp : Except PyErr Response) :
    search_index b i k resp
      = ((search_index b i k resp).1, [Request.search (searchUrl b i)],
          (search_index b i k resp).2.2) := by
  conv_lhs => rw [show search_index b i k resp
    = ((search_index b i k resp).1, (search_index b i k resp).2.1,
        (search_index b i k resp).2.2) from rfl]
  rw [search_index_requests]

theorem search_index_non200 (b i k : String) (r : Response)
    (h : r.status ≠ 200) :
    search_index b i k (.ok r)
      = (.ok [], [Request.search (searchUrl b i)], [searchErrLine r]) := by
  unfold search_index
  dsimp only
  have hbeq : (r.status == 200) = false := by simp [h]
  rw [hbeq]
  simp

theorem search_index_log_200 (b i k : String) (r : Response)
    (h : r.status = 200) : (search_index b i k (.ok r)).2.2 = [] := by
  unfold search_index
  dsimp only
  have hbeq : (r.status == 200) = true := by simp [h]
  rw [hbeq]
  simp only [if_true]
  split
  · rfl
  · split <;> rfl

theorem main_search_error (ssn idx key : String)
    (sresp : Except PyErr Response) (blob : Except PyErr Csv)
    (dresp : Except PyErr Response) (e : PyErr)
    (hs : (search_index (baseUrl ssn) idx key sresp).1 = .error e) :
    main ssn idx key sresp blob dresp
      = (.error e, [Request.search (searchUrl (baseUrl ssn) idx)],
          (search_index (baseUrl ssn) idx key sresp).2.2) := by
  have hfull := search_index_eta (baseUrl ssn) idx key sresp
  rw [hs] at hfull
  unfold main
  rw [hfull]

theorem main_loader_error (ssn idx key : String)
    (sresp : Except PyErr Response) (blob : Except PyErr Csv)
    (dresp : Except PyErr Response) (d : Dict) (e : PyErr)
    (hs : (search_index (baseUrl ssn) idx key sresp).1 = .ok d)
    (hb : load_csv_from_blob blob = .error e) :
    main ssn idx key sresp blob dresp
      = (.error e, [Request.search (searchUrl (baseUrl ssn) idx)],
          (search_index (baseUrl ssn) idx key sresp).2.2) := by
  have hfull := search_index_eta (baseUrl ssn) idx key sresp
  rw [hs] at hfull
  unfold main
  rw [hfull, hb]

theorem main_ok_ok (ssn idx key : String)
    (sresp : Except PyErr Response) (blob : Except PyErr Csv)
    (dresp : Except PyErr Response) (d r : Dict)
    (hs : (search_index (baseUrl ssn) idx key sresp).1 = .ok d)
    (hb : load_csv_from_blob blob = .ok r) :
    main ssn idx key sresp blob dresp
      = if (deletionSet d r).isEmpty then
          (.ok (), [Request.search (searchUrl (baseUrl ssn) idx)],
            (search_index (baseUrl ssn) idx key sresp).2.2 ++ [noopLine])
        else
          ((delete_documents_from_index (baseUrl ssn) idx key
              (deletionSet d r) d dresp).1,
            [Request.search (searchUrl (baseUrl ssn) idx)]
              ++ (delete_documents_from_index (baseUrl ssn) idx key
                (deletionSet d r) d dresp).2.1,
            (search_index (baseUrl ssn) idx key sresp).2.2
              ++ (delete_documents_from_index (baseUrl ssn) idx key
                (deletionSet d r) d dresp).2.2) := by
  have hfull := search_index_eta (baseUrl ssn) idx key sresp
  rw [hs] at hfull
  unfold main
  rw [hfull, hb]

theorem delete_documents_requests_of_ok (base idx key : String)
    (ids : List PyVal) (d : Dict) (resp : Except PyErr Response)
    (h : (logCandidates d ids).1 = .ok ()) :
    (delete_documents_from_index base idx key ids d resp).2.1
      = [Request.delete (indexUrl base idx)
          (ids.map (fun i => { action := "delete", id := i }))] := by
  have heta : logCandidates d ids = (.ok (), (logCandidates d ids).2) := by
    conv_lhs => rw [show logCandidates d ids
      = ((logCandidates d ids).1, (logCandidates d ids).2) from rfl]
    rw [h]
  unfold delete_documents_from_index
  rw [heta]
  rcases resp with e | r
  · rfl
  · dsimp only
    by_cases h200 : (r.status == 200) = true
    · rw [if_pos h200]
    · rw [if_neg h200]

theorem delete_documents_non200 (base idx key : String) (ids : List PyVal)
    (d : Dict) (r : Response) (hok : (logCandidates d ids).1 = .ok ())
    (h : r.status ≠ 200) :
    delete_documents_from_index base idx key ids d (.ok r)
      = (.ok (),
          [Request.delete (indexUrl base idx)
            (ids.map (fun i => { action := "delete", id := i }))],
          deletingHeaderLine :: (logCandidates d ids).2 ++ [deleteErrLine r]) := by
  have heta : logCandidates d ids = (.ok (), (logCandidates d ids).2) := by
    conv_lhs => rw [show logCandidates d ids
      = ((logCandidates d ids).1, (logCandidates d ids).2) from rfl]
    rw [hok]
  unfold delete_documents_from_index
  rw [heta]
  dsimp only
  have hbeq : (r.status == 200) = false := by simp [h]
  rw [hbeq]
  simp

theorem delete_documents_typeError (base idx key : String) (ids : List PyVal)
    (d : Dict) (resp : Except PyErr Response)
    (h : (logCandidates d ids).1 = .error .typeError) :
    delete_documents_from_index base idx key ids d resp
      = (.error .typeError, [],
          deletingHeaderLine :: (logCandidates d ids).2) := by
  have heta : logCandidates d ids
      = (.error .typeError, (logCandidates d ids).2) := by
    conv_lhs => rw [show logCandidates d ids
      = ((logCandidates d ids).1, (logCandidates d ids).2) from rfl]
    rw [h]
  unfold delete_documents_from_index
  rw [heta]

theorem mem_delete_logs (base idx key : String) (ids : List PyVal) (d : Dict)
    (resp : Except PyErr Response) (x : String)
    (h : x ∈ (logCandidates d ids).2) :
    x ∈ (delete_documents_from_index base idx key ids d resp).2.2 := by
  unfold delete_documents_from_index
  rcases hl : logCandidates d ids with ⟨res, ls⟩
  rw [hl] at h
  rcases res with e | u
  · exact List.mem_cons_of_mem _ h
  · rcases resp with e | r
    · exact List.mem_cons_of_mem _ h
    · dsimp only
      by_cases h200 : (r.status == 200) = true
      · rw [if_pos h200]
        exact List.mem_cons_of_mem _ (List.mem_append_left _ h)
      · rw [if_neg h200]
        exact List.mem_cons_of_mem _ (List.mem_append_left _ h)

/-! ### Claim theorems -/

/-- C1: for every index snapshot and reference snapshot, the deletion set
equals the list of ids that are keys of the index snapshot and not keys of
the reference snapshot, in the order the ids appear in the index snapshot;
in particular the index `{A: x, B: y}` against the reference `{A: x}`
yields `[B]`. -/
theorem deletionSet_is_index_minus_reference :
    (∀ d r : Dict,
      deletionSet d r
        = (dictKeys d).filter (fun i => decide (i ∉ dictKeys r))
      ∧ (deletionSet d r).Sublist (dictKeys d))
    ∧ deletionSet
        [(PyVal.str "A", PyVal.str "x"), (PyVal.str "B", PyVal.str "y")]
        [(PyVal.str "A", PyVal.str "x")]
      = [PyVal.str "B"] := by
  constructor
  · intro d r
    constructor
    · unfold deletionSet
      congr 1
      funext i
      rw [dictContains_eq_decide, decide_not]
    · exact List.filter_sublist _
  · rfl

/-- C8: duplicate ids among the search results or the CSV rows raise no
error when the snapshot is built: the mapping keeps a single entry per id
(its keys are nodup), holding the content of the last occurrence. -/
theorem duplicate_ids_overwrite :
    (∀ ps : List (PyVal × PyVal), (dictKeys (dictOfPairs ps)).Nodup)
    ∧ (∀ (ps : List (PyVal × PyVal)) (k : PyVal),
        dictFind (dictOfPairs ps) k = lastOccurrence ps k)
    ∧ (search_index "b" "i" "k"
        (.ok { status := 200,
               body := { value := some (
                 [{ id := some (PyVal.str "A"), content := some (PyVal.str "x") },
                  { id := some (PyVal.str "A"), content := some (PyVal.str "y") }]) },
               text := "" })).1
      = .ok [(PyVal.str "A", PyVal.str "y")]
    ∧ load_csv_from_blob
        (.ok { header := ["id", "content"],
               rows := [[PyVal.str "A", PyVal.str "x"],
                        [PyVal.str "A", PyVal.str "y"]] })
      = .ok [(PyVal.str "A", PyVal.str "y")] := by
  refine ⟨dictKeys_dictOfPairs_nodup, dictFind_dictOfPairs, ?_, ?_⟩ <;> rfl

/-- C9: on a 200 search response whose body lacks the `value` key, or
contains a document lacking the `id` or `content` field, `search_index`
raises an uncaught `KeyError`; under a 200 status it never prints the
degradation log line (degradation to an empty mapping happens only on
non-200 responses). -/
theorem malformed_200_raises_keyError (base idx key : String) (r : Response)
    (h200 : r.status = 200) :
    (r.body.value = Option.none →
      (search_index base idx key (.ok r)).1 = .error (.keyError "value"))
    ∧ (∀ docs, r.body.value = some docs →
        (∃ dd ∈ docs, dd.id = Option.none ∨ dd.content = Option.none) →
        ∃ k, (search_index base idx key (.ok r)).1 = .error (.keyError k))
    ∧ (search_index base idx key (.ok r)).2.2 = [] := by
  have hbeq : (r.status == 200) = true := by simp [h200]
  refine ⟨?_, ?_, search_index_log_200 base idx key r h200⟩
  · intro hv
    unfold search_index
    dsimp only
    rw [hbeq]
    simp only [if_true]
    rw [hv]
  · intro docs hv hbad
    obtain ⟨k, hk⟩ := collectDocs_error_of_bad docs hbad
    refine ⟨k, ?_⟩
    unfold search_index
    dsimp only
    rw [hbeq]
    simp only [if_true]
    rw [hv]
    dsimp only
    rw [hk]

/-- Witness for the C9 theorem at a concrete 200 response without a
`value` key. -/
theorem malformed_200_raises_keyError_witness :
    (search_index "b" "i" "k"
      (.ok { status := 200, body := { value := Option.none }, text := "" })).1
      = .error (.keyError "value") :=
  (malformed_200_raises_keyError "b" "i" "k"
    { status := 200, body := { value := Option.none }, text := "" } rfl).1 rfl

/-- C2: a non-200 search response makes `search_index` return the empty
mapping after printing the status and body; the run then issues no delete
request, and — provided the reference load itself succeeds — terminates
normally rather than crashing. -/
theorem search_fail_degrades_no_delete (ssn idx key : String) (r : Response)
    (h : r.status ≠ 200) (blob : Except PyErr Csv)
    (dresp : Except PyErr Response) :
    (search_index (baseUrl ssn) idx key (.ok r)).1 = .ok []
    ∧ (search_index (baseUrl ssn) idx key (.ok r)).2.2 = [searchErrLine r]
    ∧ (∀ q ∈ (main ssn idx key (.ok r) blob dresp).2.1,
        q.isDeleteReq = false)
    ∧ (∀ rr : Dict, load_csv_from_blob blob = .ok rr →
        (main ssn idx key (.ok r) blob dresp).1 = .ok ()) := by
  have hsi := search_index_non200 (baseUrl ssn) idx key r h
  have hs1 : (search_index (baseUrl ssn) idx key (.ok r)).1 = .ok [] := by
    rw [hsi]
  refine ⟨hs1, by rw [hsi], ?_, ?_⟩
  · rcases hb : load_csv_from_blob blob with e | rr
    · rw [main_loader_error ssn idx key _ blob dresp [] e hs1 hb]
      intro q hq
      rcases List.mem_singleton.mp hq with rfl
      rfl
    · rw [main_ok_ok ssn idx key _ blob dresp [] rr hs1 hb]
      rw [show deletionSet [] rr = [] from rfl]
      simp only [List.isEmpty_nil, if_true]
      intro q hq
      rcases List.mem_singleton.mp hq with rfl
      rfl
  · intro rr hb
    rw [main_ok_ok ssn idx key _ blob dresp [] rr hs1 hb]
    rw [show deletionSet [] rr = [] from rfl]
    simp only [List.isEmpty_nil, if_true]

/-- Witness for the C2 theorem at a concrete 500 response and a concrete
well-formed empty CSV. -/
theorem search_fail_degrades_no_delete_witness :
    (search_index (baseUrl "svc") "idx" "key"
        (.ok { status := 500, body := { value := Option.none },
               text := "boom" })).1 = .ok []
    ∧ (search_index (baseUrl "svc") "idx" "key"
        (.ok { status := 500, body := { value := Option.none },
               text := "boom" })).2.2
      = [searchErrLine
          { status := 500, body := { value := Option.none }, text := "boom" }]
    ∧ (∀ q ∈ (main "svc" "idx" "key"
        (.ok { status := 500, body := { value := Option.none },
               text := "boom" })
        (.ok { header := ["id", "content"], rows := [] })
        (.error .requestException)).2.1, q.isDeleteReq = false)
    ∧ (∀ rr : Dict,
        load_csv_from_blob
          (.ok { header := ["id", "content"], rows := [] }) = .ok rr →
        (main "svc" "idx" "key"
          (.ok { status := 500, body := { value := Option.none },
                 text := "boom" })
          (.ok { header := ["id", "content"], rows := [] })
          (.error .requestException)).1 = .ok ()) :=
  search_fail_degrades_no_delete "svc" "idx" "key"
    { status := 500, body := { value := Option.none }, text := "boom" }
    (by decide)
    (.ok { header := ["id", "content"], rows := [] })
    (.error .requestException)

/-- C5: when every id of the index snapshot is a key of the reference
snapshot, the deletion set is empty, no delete request is issued (the only
request of the whole run is the search), and the no-op message is the last
line printed. -/
theorem identical_snapshots_noop (ssn idx key : String)
    (sresp dresp : Except PyErr Response) (blob : Except PyErr Csv)
    (d r : Dict)
    (hs : (search_index (baseUrl ssn) idx key sresp).1 = .ok d)
    (hb : load_csv_from_blob blob = .ok r)
    (hsub : ∀ i ∈ dictKeys d, dictContains r i = true) :
    deletionSet d r = []
    ∧ main ssn idx key sresp blob dresp
        = (.ok (), [Request.search (searchUrl (baseUrl ssn) idx)],
            (search_index (baseUrl ssn) idx key sresp).2.2 ++ [noopLine]) := by
  have hds : deletionSet d r = [] := by
    unfold deletionSet
    rw [List.filter_eq_nil_iff]
    intro i hi
    rw [hsub i hi]
    simp
  refine ⟨hds, ?_⟩
  rw [main_ok_ok ssn idx key sresp blob dresp d r hs hb, hds]
  simp only [List.isEmpty_nil, if_true]

/-- Witness for the C5 theorem at a concrete run whose index snapshot and
reference snapshot both hold exactly the document `A`. -/
theorem identical_snapshots_noop_witness :
    deletionSet [(PyVal.str "A", PyVal.str "x")]
        [(PyVal.str "A", PyVal.str "x")] = []
    ∧ main "svc" "idx" "key"
        (.ok { status := 200,
               body := { value := some (
                 [{ id := some (PyVal.str "A"),
                    content := some (PyVal.str "x") }]) },
               text := "" })
        (.ok { header := ["id", "content"],
               rows := [[PyVal.str "A", PyVal.str "x"]] })
        (.error .requestException)
      = (.ok (), [Request.search (searchUrl (baseUrl "svc") "idx")],
          (search_index (baseUrl "svc") "idx" "key"
            (.ok { status := 200,
                   body := { value := some (
                     [{ id := some (PyVal.str "A"),
                        content := some (PyVal.str "x") }]) },
                   text := "" })).2.2 ++ [noopLine]) :=
  identical_snapshots_noop "svc" "idx" "key"
    (.ok { status := 200,
           body := { value := some (
             [{ id := some (PyVal.str "A"),
                content := some (PyVal.str "x") }]) },
           text := "" })
    (.error .requestException)
    (.ok { header := ["id", "content"],
           rows := [[PyVal.str "A", PyVal.str "x"]] })
    [(PyVal.str "A", PyVal.str "x")] [(PyVal.str "A", PyVal.str "x")]
    rfl rfl (by decide)

/-- C6: every key of a loaded reference snapshot is a string (the id cell
is coerced through an f-string), and concretely the numeric CSV id `5`
loads as the key `"5"`, which matches the index id `"5"` so that id is not
selected for deletion. -/
theorem csv_ids_string_coerced (blob : Except PyErr Csv) (d : Dict)
    (h : load_csv_from_blob blob = .ok d) :
    (∀ k ∈ dictKeys d, ∃ s, k = PyVal.str s)
    ∧ load_csv_from_blob
        (.ok { header := ["id", "content"],
               rows := [[PyVal.int 5, PyVal.str "c"]] })
      = .ok [(PyVal.str "5", PyVal.str "c")]
    ∧ deletionSet [(PyVal.str "5", PyVal.str "x")]
        [(PyVal.str "5", PyVal.str "c")] = [] := by
  refine ⟨?_, rfl, rfl⟩
  rcases blob with e | csv
  · exact absurd h (by simp [load_csv_from_blob])
  · unfold load_csv_from_blob at h
    dsimp only at h
    rcases hr : collectRows csv.header csv.rows with e | ps
    · rw [hr] at h
      exact absurd h (by simp)
    · rw [hr] at h
      have hd : d = dictOfPairs ps := by
        cases h
        rfl
      subst hd
      intro k hk
      obtain ⟨v, hv⟩ := mem_dictKeys_dictOfPairs ps k hk
      exact collectRows_ok_keys csv.header csv.rows ps hr (k, v) hv

/-- Witness for the C6 theorem at the concrete CSV holding the single row
with numeric id `5`. -/
theorem csv_ids_string_coerced_witness :
    (∀ k ∈ dictKeys [(PyVal.str "5", PyVal.str "c")], ∃ s, k = PyVal.str s)
    ∧ load_csv_from_blob
        (.ok { header := ["id", "content"],
               rows := [[PyVal.int 5, PyVal.str "c"]] })
      = .ok [(PyVal.str "5", PyVal.str "c")]
    ∧ deletionSet [(PyVal.str "5", PyVal.str "x")]
        [(PyVal.str "5", PyVal.str "c")] = [] :=
  csv_ids_string_coerced
    (.ok { header := ["id", "content"],
           rows := [[PyVal.int 5, PyVal.str "c"]] })
    [(PyVal.str "5", PyVal.str "c")] rfl

/-- C3 counterexample: a CSV whose header lacks the `id` column but has no
data rows loads to the empty mapping without raising, and a run given that
CSV terminates normally — the claim "every CSV whose header lacks an `id`
column raises a fatal error" fails on the zero-row CSV, because the dict
comprehension never evaluates `row["id"]`. -/
theorem csv_missing_id_zero_rows_ok :
    load_csv_from_blob (.ok { header := ["content"], rows := [] }) = .ok []
    ∧ (main "svc" "idx" "key"
        (.ok { status := 500, body := { value := Option.none }, text := "err" })
        (.ok { header := ["content"], rows := [] })
        (.error .requestException)).1 = .ok () :=
  ⟨rfl, rfl⟩

/-- C3 (amended): for every CSV whose header lacks the `id` column and
that has at least one data row, the load raises `KeyError("id")` and the
run fails with an uncaught error before any delete request is issued; a
download or parse failure of the blob itself likewise propagates uncaught
with no delete request issued. -/
theorem csv_missing_id_fatal (ssn idx key : String)
    (sresp dresp : Except PyErr Response) (csv : Csv)
    (hid : "id" ∉ csv.header) (hrows : csv.rows ≠ []) :
    load_csv_from_blob (.ok csv) = .error (.keyError "id")
    ∧ (∃ e, (main ssn idx key sresp (.ok csv) dresp).1 = .error e)
    ∧ (∀ q ∈ (main ssn idx key sresp (.ok csv) dresp).2.1,
        q.isDeleteReq = false)
    ∧ ∀ err : PyErr,
        (∃ e, (main ssn idx key sresp (.error err) dresp).1 = .error e)
        ∧ ∀ q ∈ (main ssn idx key sresp (.error err) dresp).2.1,
            q.isDeleteReq = false := by
  have hload : load_csv_from_blob (.ok csv) = .error (.keyError "id") := by
    unfold load_csv_from_blob
    dsimp only
    rw [collectRows_error_no_id csv.header csv.rows hid hrows]
  refine ⟨hload, ?_, ?_, ?_⟩
  · rcases hs : (search_index (baseUrl ssn) idx key sresp).1 with e | d
    · exact ⟨e, by rw [main_search_error ssn idx key sresp (.ok csv) dresp e hs]⟩
    · exact ⟨.keyError "id",
        by rw [main_loader_error ssn idx key sresp (.ok csv) dresp d
          (.keyError "id") hs hload]⟩
  · rcases hs : (search_index (baseUrl ssn) idx key sresp).1 with e | d
    · rw [main_search_error ssn idx key sresp (.ok csv) dresp e hs]
      intro q hq
      rcases List.mem_singleton.mp hq with rfl
      rfl
    · rw [main_loader_error ssn idx key sresp (.ok csv) dresp d
        (.keyError "id") hs hload]
      intro q hq
      rcases List.mem_singleton.mp hq with rfl
      rfl
  · intro err
    have hloadErr : load_csv_from_blob (Except.error err) = .error err := rfl
    rcases hs : (search_index (baseUrl ssn) idx key sresp).1 with e | d
    · refine ⟨⟨e,
        by rw [main_search_error ssn idx key sresp (.error err) dresp e hs]⟩, ?_⟩
      rw [main_search_error ssn idx key sresp (.error err) dresp e hs]
      intro q hq
      rcases List.mem_singleton.mp hq with rfl
      rfl
    · refine ⟨⟨err,
        by rw [main_loader_error ssn idx key sresp (.error err) dresp d err
          hs hloadErr]⟩, ?_⟩
      rw [main_loader_error ssn idx key sresp (.error err) dresp d err
        hs hloadErr]
      intro q hq
      rcases List.mem_singleton.mp hq with rfl
      rfl

/-- Witness for the amended C3 theorem at a concrete one-row CSV with no
`id` column. -/
theorem csv_missing_id_fatal_witness :
    load_csv_from_blob
        (.ok { header := ["content"], rows := [[PyVal.str "x"]] })
      = .error (.keyError "id")
    ∧ (∃ e, (main "svc" "idx" "key"
        (.ok { status := 500, body := { value := Option.none }, text := "err" })
        (.ok { header := ["content"], rows := [[PyVal.str "x"]] })
        (.error .requestException)).1 = .error e)
    ∧ (∀ q ∈ (main "svc" "idx" "key"
        (.ok { status := 500, body := { value := Option.none }, text := "err" })
        (.ok { header := ["content"], rows := [[PyVal.str "x"]] })
        (.error .requestException)).2.1, q.isDeleteReq = false)
    ∧ ∀ err : PyErr,
        (∃ e, (main "svc" "idx" "key"
          (.ok { status := 500, body := { value := Option.none }, text := "err" })
          (.error err) (.error .requestException)).1 = .error e)
        ∧ ∀ q ∈ (main "svc" "idx" "key"
            (.ok { status := 500, body := { value := Option.none }, text := "err" })
            (.error err) (.error .requestException)).2.1,
            q.isDeleteReq = false :=
  csv_missing_id_fatal "svc" "idx" "key"
    (.ok { status := 500, body := { value := Option.none }, text := "err" })
    (.error .requestException)
    { header := ["content"], rows := [[PyVal.str "x"]] }
    (by decide) (by decide)

/-- C4 counterexample: a transport-level exception raised by the search
POST itself propagates uncaught out of `main` — it is not caught and
logged, so the claim that every network/API error on the search or delete
call is caught fails. -/
theorem transport_error_crashes :
    (main "svc" "idx" "key" (.error .requestException)
      (.ok { header := ["id", "content"], rows := [] })
      (.ok { status := 200, body := { value := Option.none }, text := "" })).1
    = .error .requestException :=
  rfl

/-- C4 (amended): every error *response* (non-200 status) on the search or
delete call is caught and logged and the stage degrades — search returns
the empty mapping after printing the search error line, and delete
finishes normally printing the deletion error line instead of a success
count — so the process continues; only transport-level exceptions raised
by the POST call itself propagate uncaught. -/
theorem api_error_responses_degrade (base idx key : String) (r : Response)
    (h : r.status ≠ 200) :
    search_index base idx key (.ok r)
      = (.ok [], [Request.search (searchUrl base idx)], [searchErrLine r])
    ∧ ∀ (ids : List PyVal) (d : Dict),
        (∀ i ∈ ids,
          isStrVal (dictGet d i (PyVal.str "Content not available")) = true) →
        delete_documents_from_index base idx key ids d (.ok r)
          = (.ok (),
              [Request.delete (indexUrl base idx)
                (ids.map (fun i => { action := "delete", id := i }))],
              deletingHeaderLine :: (logCandidates d ids).2
                ++ [deleteErrLine r]) := by
  refine ⟨search_index_non200 base idx key r h, ?_⟩
  intro ids d hstr
  exact delete_documents_non200 base idx key ids d r
    (logCandidates_ok_of_strings d ids hstr) h

/-- Witness for the amended C4 theorem at a concrete 503 response, for
both the search stage and the delete stage. -/
theorem api_error_responses_degrade_witness :
    (search_index "b" "i" "k"
        (.ok { status := 503, body := { value := Option.none },
               text := "down" })
      = (.ok [], [Request.search (searchUrl "b" "i")],
          [searchErrLine
            { status := 503, body := { value := Option.none },
              text := "down" }]))
    ∧ delete_documents_from_index "b" "i" "k" [PyVal.str "A"]
        [(PyVal.str "A", PyVal.str "hello")]
        (.ok { status := 503, body := { value := Option.none },
               text := "down" })
      = (.ok (),
          [Request.delete (indexUrl "b" "i")
            ([PyVal.str "A"].map (fun i => { action := "delete", id := i }))],
          deletingHeaderLine
            :: (logCandidates [(PyVal.str "A", PyVal.str "hello")]
                 [PyVal.str "A"]).2
            ++ [deleteErrLine
                 { status := 503, body := { value := Option.none },
                   text := "down" }]) :=
  ⟨(api_error_responses_degrade "b" "i" "k"
      { status := 503, body := { value := Option.none }, text := "down" }
      (by decide)).1,
   (api_error_responses_degrade "b" "i" "k"
      { status := 503, body := { value := Option.none }, text := "down" }
      (by decide)).2
     [PyVal.str "A"] [(PyVal.str "A", PyVal.str "hello")] (by decide)⟩

/-- C7 counterexample: a run whose deletion set is the non-empty
`["A"]` but whose index snapshot holds a null content for `A` issues no
delete request at all (its only request is the search POST): the logging
loop raises `TypeError` before the POST, so "for every non-empty deletion
set exactly one batch delete request is issued" fails. -/
theorem nonempty_deletion_set_without_request :
    deletionSet [(PyVal.str "A", PyVal.none)] [] = [PyVal.str "A"]
    ∧ (main "svc" "idx" "key"
        (.ok { status := 200,
               body := { value := some (
                 [{ id := some (PyVal.str "A"),
                    content := some PyVal.none }]) },
               text := "" })
        (.ok { header := ["id", "content"], rows := [] })
        (.error .requestException)).2.1
      = [Request.search (searchUrl (baseUrl "svc") "idx")]
    ∧ (main "svc" "idx" "key"
        (.ok { status := 200,
               body := { value := some (
                 [{ id := some (PyVal.str "A"),
                    content := some PyVal.none }]) },
               text := "" })
        (.ok { header := ["id", "content"], rows := [] })
        (.error .requestException)).1 = .error .typeError :=
  ⟨rfl, rfl, rfl⟩

/-- C7 (amended): provided the content of every deletion candidate in the index
snapshot is a string (so the candidate logging succeeds), exactly one
batch delete request is issued, a POST to
`{base}/indexes/{index}/docs/index?api-version=2024-07-01` whose body
`value` array holds exactly one `{"@search.action": "delete", "id": i}`
entry per id of the deletion set, in deletion-set order; and a full run
with a non-empty deletion set issues exactly the search request followed
by that delete request. -/
theorem batch_delete_request_format (base idx key : String)
    (ids : List PyVal) (d : Dict) (resp : Except PyErr Response)
    (hstr : ∀ i ∈ ids,
      isStrVal (dictGet d i (PyVal.str "Content not available")) = true) :
    (delete_documents_from_index base idx key ids d resp).2.1
      = [Request.delete (indexUrl base idx)
          (ids.map (fun i => { action := "delete", id := i }))]
    ∧ ∀ (ssn : String) (sresp dresp : Except PyErr Response)
        (blob : Except PyErr Csv) (dd rr : Dict),
        (search_index (baseUrl ssn) idx key sresp).1 = .ok dd →
        load_csv_from_blob blob = .ok rr →
        deletionSet dd rr ≠ [] →
        (∀ i ∈ deletionSet dd rr,
          isStrVal (dictGet dd i (PyVal.str "Content not available")) = true) →
        (main ssn idx key sresp blob dresp).2.1
          = [Request.search (searchUrl (baseUrl ssn) idx),
             Request.delete (indexUrl (baseUrl ssn) idx)
               ((deletionSet dd rr).map
                 (fun i => { action := "delete", id := i }))] := by
  refine ⟨delete_documents_requests_of_ok base idx key ids d resp
    (logCandidates_ok_of_strings d ids hstr), ?_⟩
  intro ssn sresp dresp blob dd rr hs hb hne hstr2
  rw [main_ok_ok ssn idx key sresp blob dresp dd rr hs hb]
  have hie : (deletionSet dd rr).isEmpty = false := by
    rcases hD : deletionSet dd rr with _ | ⟨x, xs⟩
    · exact absurd hD hne
    · rfl
  rw [hie]
  simp only [Bool.false_eq_true, if_false]
  rw [delete_documents_requests_of_ok (baseUrl ssn) idx key
    (deletionSet dd rr) dd dresp
    (logCandidates_ok_of_strings dd (deletionSet dd rr) hstr2)]
  rfl

/-- Witness for the amended C7 theorem: the delete-stage request format at
a concrete singleton candidate list, and a concrete full run whose
deletion set is `["A"]`. -/
theorem batch_delete_request_format_witness :
    (delete_documents_from_index "b" "i" "k" [PyVal.str "A"]
        [(PyVal.str "A", PyVal.str "x")] (.error .requestException)).2.1
      = [Request.delete (indexUrl "b" "i")
          ([PyVal.str "A"].map (fun i => { action := "delete", id := i }))]
    ∧ (main "svc" "i" "k"
        (.ok { status := 200,
               body := { value := some (
                 [{ id := some (PyVal.str "A"),
                    content := some (PyVal.str "x") }]) },
               text := "" })
        (.ok { header := ["id", "content"], rows := [] })
        (.error .requestException)).2.1
      = [Request.search (searchUrl (baseUrl "svc") "i"),
         Request.delete (indexUrl (baseUrl "svc") "i")
           ((deletionSet [(PyVal.str "A", PyVal.str "x")] []).map
             (fun i => { action := "delete", id := i }))] :=
  ⟨(batch_delete_request_format "b" "i" "k" [PyVal.str "A"]
      [(PyVal.str "A", PyVal.str "x")] (.error .requestException)
      (by decide)).1,
   (batch_delete_request_format (baseUrl "svc") "i" "k" [PyVal.str "A"]
      [(PyVal.str "A", PyVal.str "x")] (.error .requestException)
      (by decide)).2
     "svc"
     (.ok { status := 200,
            body := { value := some (
              [{ id := some (PyVal.str "A"),
                 content := some (PyVal.str "x") }]) },
            text := "" })
     (.error .requestException)
     (.ok { header := ["id", "content"], rows := [] })
     [(PyVal.str "A", PyVal.str "x")] []
     rfl rfl (by decide) (by decide)⟩

/-- C10: a deletion candidate whose content in the index snapshot is not a
string (for example a null content) makes `delete_documents_from_index`
raise an uncaught `TypeError` during the preview logging, before any
delete request is sent (the request list is empty); and for a candidate
whose content is the string `s`, the printed line previews exactly the
first 30 characters of `s`. -/
theorem delete_content_preview (base idx key : String) (ids : List PyVal)
    (d : Dict) (resp : Except PyErr Response) :
    ((∃ i ∈ ids,
        isStrVal (dictGet d i (PyVal.str "Content not available")) = false) →
      delete_documents_from_index base idx key ids d resp
        = (.error .typeError, [],
            deletingHeaderLine :: (logCandidates d ids).2))
    ∧ ∀ (pre post : List PyVal) (i : PyVal) (s : String),
        ids = pre ++ i :: post →
        (∀ j ∈ pre,
          isStrVal (dictGet d j (PyVal.str "Content not available")) = true) →
        dictGet d i (PyVal.str "Content not available") = PyVal.str s →
        candLine i (s.take 30)
          ∈ (delete_documents_from_index base idx key ids d resp).2.2 := by
  constructor
  · intro hbad
    exact delete_documents_typeError base idx key ids d resp
      (logCandidates_error_of_nonstring d ids hbad)
  · intro pre post i s hids hpre hi
    subst hids
    exact mem_delete_logs base idx key (pre ++ i :: post) d resp
      (candLine i (s.take 30)) (logCandidates_mem d pre post i s hpre hi)

/-- Witness for the C10 theorem: a concrete null-content candidate raising
`TypeError` with no request issued, and a concrete string-content
candidate whose printed line previews the first 30 characters. -/
theorem delete_content_preview_witness :
    delete_documents_from_index "b" "i" "k" [PyVal.str "A"]
        [(PyVal.str "A", PyVal.none)] (.error .requestException)
      = (.error .typeError, [],
          deletingHeaderLine
            :: (logCandidates [(PyVal.str "A", PyVal.none)]
                 [PyVal.str "A"]).2)
    ∧ candLine (PyVal.str "B") (("yo" : String).take 30)
        ∈ (delete_documents_from_index "b" "i" "k" [PyVal.str "B"]
            [(PyVal.str "B", PyVal.str "yo")] (.error .requestException)).2.2 :=
  ⟨(delete_content_preview "b" "i" "k" [PyVal.str "A"]
      [(PyVal.str "A", PyVal.none)] (.error .requestException)).1
     ⟨PyVal.str "A", by decide, by decide⟩,
   (delete_content_preview "b" "i" "k" [PyVal.str "B"]
      [(PyVal.str "B", PyVal.str "yo")] (.error .requestException)).2
     [] [] (PyVal.str "B") "yo" rfl (by decide) (by decide)⟩

end Syncall
